import Mathlib

/-!
ScriptManager launcher

A shallow embedding of `src/ScriptManager/launcher.cpp` and the properties of
its `main`.

The program is a straight line of five calls into the platform:

```
auto l = LoadLibraryA("script-manager.dll");
auto getUIThreadHandle = (HANDLE(*)())GetProcAddress(l, "GetUIThreadHandle");
auto uiThread = getUIThreadHandle();
printf("Library loaded: %p (UI thread: %p)\n", l, uiThread);
WaitForSingleObject(uiThread, INFINITE);
```

Every call is recorded as an `Effect` in a trace.  What the platform answers is
given by a `Win32` record; the call through the resolved pointer and the wait
may fail to return (a fault, a process exit inside the library, a handle that
is never signaled), which is the answer `none`.
-/

namespace Launcher

/-! ## Data model: pointer-sized values -/

/-- A loaded-module handle; the null handle is `0`. -/
abbrev HMODULE := Nat

/-- The address `GetProcAddress` returns; the null pointer is `0`. -/
abbrev FARPROC := Nat

/-- A wait-able handle; the null handle is `0`. -/
abbrev HANDLE := Nat

/-- A 32-bit unsigned value. -/
abbrev DWORD := Nat

/-- The null pointer / null handle. -/
def NULL : Nat := 0

/-- Modelled from the spec: the constant `INFINITE` of `<windows.h>`, a header that
is not part of the repository; its value is `0xFFFFFFFF`. -/
def INFINITE : DWORD := 0xFFFFFFFF

/-- The return value `WAIT_FAILED` of a wait, the answer for an invalid handle
(used by the sample platforms only). -/
def WAIT_FAILED : DWORD := 0xFFFFFFFF

/-- The return value `WAIT_OBJECT_0` of a wait, the answer when the handle was
signaled (used by the sample platforms only). -/
def WAIT_OBJECT_0 : DWORD := 0

/-! ## Effects and the platform -/

/-- One externally observable call made by the program, with its arguments. -/
inductive Effect where
  | LoadLibraryA (lpLibFileName : String)
  | GetProcAddress (hModule : HMODULE) (lpProcName : String)
  | call (fn : FARPROC) (args : List Nat)
  | printf (format : String) (args : List Nat)
  | WaitForSingleObject (hHandle : HANDLE) (dwMilliseconds : DWORD)
  deriving DecidableEq, Repr

/-- The five kinds of call. -/
inductive Kind where
  | load | lookup | call | print | wait
  deriving DecidableEq, Repr

/-- The kind of an effect. -/
def Effect.kind : Effect → Kind
  | .LoadLibraryA _ => .load
  | .GetProcAddress _ _ => .lookup
  | .call _ _ => .call
  | .printf _ _ => .print
  | .WaitForSingleObject _ _ => .wait

/-- The answers of the platform.  `call` is the code behind a function pointer
and `WaitForSingleObject` blocks: both may never return (`none`). -/
structure Win32 where
  LoadLibraryA : String → HMODULE
  GetProcAddress : HMODULE → String → FARPROC
  call : FARPROC → Option HANDLE
  WaitForSingleObject : HANDLE → DWORD → Option DWORD
  /-- How the C runtime renders a `%p` argument (implementation defined). -/
  fmtPtr : Nat → String

/-- What a (partly) executed program leaves behind: the calls made so far and,
when it ran to completion, its value. -/
structure Outcome (α : Type) where
  trace : List Effect
  value : Option α

/-- A program: given the platform and the calls made so far, it runs. -/
def Prog (α : Type) : Type := Win32 → List Effect → Outcome α

/-- Sequencing: the continuation runs only when the first part returned. -/
def Prog.bind {α β : Type} (m : Prog α) (f : α → Prog β) : Prog β :=
  fun os tr =>
    match m os tr with
    | ⟨tr1, some a⟩ => f a os tr1
    | ⟨tr1, none⟩ => ⟨tr1, none⟩

instance : Monad Prog where
  pure a := fun _ tr => ⟨tr, some a⟩
  bind := Prog.bind

/-- The call `LoadLibraryA(lpLibFileName)`. -/
def LoadLibraryA (lpLibFileName : String) : Prog HMODULE :=
  fun os tr => ⟨tr ++ [Effect.LoadLibraryA lpLibFileName], some (os.LoadLibraryA lpLibFileName)⟩

/-- The call `GetProcAddress(hModule, lpProcName)`. -/
def GetProcAddress (hModule : HMODULE) (lpProcName : String) : Prog FARPROC :=
  fun os tr =>
    ⟨tr ++ [Effect.GetProcAddress hModule lpProcName], some (os.GetProcAddress hModule lpProcName)⟩

/-- A call through a pointer of type `HANDLE(*)()`: no arguments, a handle back. -/
def callHandleFn (fn : FARPROC) : Prog HANDLE :=
  fun os tr => ⟨tr ++ [Effect.call fn []], os.call fn⟩

/-- The call `printf(format, args...)`; its return value is never used. -/
def printf (format : String) (args : List Nat) : Prog Unit :=
  fun _ tr => ⟨tr ++ [Effect.printf format args], some ()⟩

/-- The call `WaitForSingleObject(hHandle, dwMilliseconds)`. -/
def WaitForSingleObject (hHandle : HANDLE) (dwMilliseconds : DWORD) : Prog DWORD :=
  fun os tr =>
    ⟨tr ++ [Effect.WaitForSingleObject hHandle dwMilliseconds],
      os.WaitForSingleObject hHandle dwMilliseconds⟩

/-! ## Standard output -/

/-- The text `printf` produces for a format whose only conversions are `%p`
and `%%`, the arguments rendered by `fmtPtr`. -/
def formatChars (fmtPtr : Nat → String) : List Char → List Nat → List Char
  | [], _ => []
  | '%' :: 'p' :: rest, a :: args => (fmtPtr a).data ++ formatChars fmtPtr rest args
  | '%' :: '%' :: rest, args => '%' :: formatChars fmtPtr rest args
  | c :: rest, args => c :: formatChars fmtPtr rest args

/-- The text one effect writes to standard output. -/
def Effect.output (fmtPtr : Nat → String) : Effect → String
  | .printf format args => String.mk (formatChars fmtPtr format.data args)
  | _ => ""

/-- Everything a trace writes to standard output, in order. -/
def stdout (fmtPtr : Nat → String) (tr : List Effect) : String :=
  tr.foldl (fun s e => s ++ e.output fmtPtr) ""

/-! ## The program -/

/-- The function `main` of `launcher.cpp`.  A `main` that flows off its end
returns `0`. -/
def main : Prog Int := do
  let l ← LoadLibraryA "script-manager.dll"
  let getUIThreadHandle ← GetProcAddress l "GetUIThreadHandle"
  let uiThread ← callHandleFn getUIThreadHandle
  printf "Library loaded: %p (UI thread: %p)\n" [l, uiThread]
  let _ ← WaitForSingleObject uiThread INFINITE
  return 0

/-- One run of the process: `main` started with an empty trace. -/
def run (os : Win32) : Outcome Int := main os []

/-- The module handle the load returns in a run. -/
def loaded (os : Win32) : HMODULE := os.LoadLibraryA "script-manager.dll"

/-- The entry point the lookup returns in a run. -/
def resolved (os : Win32) : FARPROC := os.GetProcAddress (loaded os) "GetUIThreadHandle"

/-! ## Sample platforms -/

/-- Renders a pointer the way a 64-bit Microsoft C runtime does for `%p`:
sixteen upper-case hexadecimal digits. -/
def hexPtr (n : Nat) : String :=
  let ds := (Nat.toDigits 16 n).map Char.toUpper
  String.mk (List.replicate (16 - ds.length) '0' ++ ds)

/-- The library loads at `0x10000000`, the export is at `0x10001000`, it returns
the handle `0x1C4`, and the wait returns `WAIT_OBJECT_0` once that handle is
signaled. -/
def osGood : Win32 where
  LoadLibraryA := fun name => if name = "script-manager.dll" then 0x10000000 else 0
  GetProcAddress := fun m name =>
    if m = 0x10000000 ∧ name = "GetUIThreadHandle" then 0x10001000 else 0
  call := fun fn => if fn = 0x10001000 then some 0x1C4 else none
  WaitForSingleObject := fun h _ => if h = 0x1C4 then some WAIT_OBJECT_0 else some WAIT_FAILED
  fmtPtr := hexPtr

/-- The library is missing: the load and the lookup return null, and the call
through the null pointer faults. -/
def osMissing : Win32 where
  LoadLibraryA := fun _ => 0
  GetProcAddress := fun _ _ => 0
  call := fun fn => if fn = 0 then none else some 0x1C4
  WaitForSingleObject := fun h _ => if h = 0 then some WAIT_FAILED else some WAIT_OBJECT_0
  fmtPtr := hexPtr

/-- The entry point returns a null handle, on which the wait fails at once. -/
def osNullHandle : Win32 where
  LoadLibraryA := fun _ => 0x10000000
  GetProcAddress := fun _ _ => 0x10001000
  call := fun _ => some 0
  WaitForSingleObject := fun h _ => if h = 0 then some WAIT_FAILED else some WAIT_OBJECT_0
  fmtPtr := hexPtr

/-- The wait returns only for the handle `0x1C4`, the one handle that is
signaled; on any other handle it blocks for ever. -/
def osSignal : Win32 where
  LoadLibraryA := fun _ => 0x10000000
  GetProcAddress := fun _ _ => 0x10001000
  call := fun _ => some 0x1C4
  WaitForSingleObject := fun h _ => if h = 0x1C4 then some WAIT_OBJECT_0 else none
  fmtPtr := hexPtr

/-- The effects of one kind in a trace, in order. -/
def ofKind (k : Kind) (tr : List Effect) : List Effect :=
  tr.filter (fun e => e.kind = k)

/-- The kinds of the four steps load, lookup, call, wait. -/
def fourSteps : List Kind := [Kind.load, Kind.lookup, Kind.call, Kind.wait]

/-! ## The shape of every run -/

/-- The calls of a run: load, lookup and call always; the print and the wait
exactly when the call through the entry point returned. -/
theorem run_trace (os : Win32) :
    (run os).trace =
      [Effect.LoadLibraryA "script-manager.dll",
       Effect.GetProcAddress (loaded os) "GetUIThreadHandle",
       Effect.call (resolved os) []] ++
      (match os.call (resolved os) with
       | none => []
       | some h =>
         [Effect.printf "Library loaded: %p (UI thread: %p)\n" [loaded os, h],
          Effect.WaitForSingleObject h INFINITE]) := by
  simp only [run, main, bind, Prog.bind, LoadLibraryA, GetProcAddress, callHandleFn, printf,
    WaitForSingleObject, pure, loaded, resolved]
  cases h : os.call (os.GetProcAddress (os.LoadLibraryA "script-manager.dll") "GetUIThreadHandle") with
  | none => simp
  | some a =>
    simp
    cases os.WaitForSingleObject a INFINITE <;> simp

/-- The exit status of a run: `0` when the entry point and then the wait
returned, none otherwise. -/
theorem run_value (os : Win32) :
    (run os).value =
      (match os.call (resolved os) with
       | none => none
       | some h =>
         match os.WaitForSingleObject h INFINITE with
         | none => none
         | some _ => some 0) := by
  simp only [run, main, bind, Prog.bind, LoadLibraryA, GetProcAddress, callHandleFn, printf,
    WaitForSingleObject, pure, loaded, resolved]
  cases h : os.call (os.GetProcAddress (os.LoadLibraryA "script-manager.dll") "GetUIThreadHandle") with
  | none => simp
  | some a =>
    simp
    cases os.WaitForSingleObject a INFINITE <;> simp

/-- The trace of a run whose entry point returned the handle `h`. -/
theorem run_trace_of_call (os : Win32) (h : HANDLE) (hcall : os.call (resolved os) = some h) :
    (run os).trace =
      [Effect.LoadLibraryA "script-manager.dll",
       Effect.GetProcAddress (loaded os) "GetUIThreadHandle",
       Effect.call (resolved os) [],
       Effect.printf "Library loaded: %p (UI thread: %p)\n" [loaded os, h],
       Effect.WaitForSingleObject h INFINITE] := by
  rw [run_trace, hcall]; rfl

/-- The trace of a run whose entry point did not return. -/
theorem run_trace_of_no_return (os : Win32) (hcall : os.call (resolved os) = none) :
    (run os).trace =
      [Effect.LoadLibraryA "script-manager.dll",
       Effect.GetProcAddress (loaded os) "GetUIThreadHandle",
       Effect.call (resolved os) []] := by
  rw [run_trace, hcall]; rfl

/-- A run that completed went through the entry point and the wait. -/
theorem run_value_some (os : Win32) (code : Int) (hdone : (run os).value = some code) :
    ∃ h r, os.call (resolved os) = some h ∧ os.WaitForSingleObject h INFINITE = some r ∧
      code = 0 := by
  rw [run_value] at hdone
  cases hc : os.call (resolved os) with
  | none => simp [hc] at hdone
  | some h =>
    cases hw : os.WaitForSingleObject h INFINITE with
    | none => simp [hc, hw] at hdone
    | some r =>
      simp [hc, hw] at hdone
      exact ⟨h, r, rfl, hw, hdone.symm⟩

/-- The text of the one `printf` of `main`. -/
theorem formatChars_main (fmtPtr : Nat → String) (l h : Nat) :
    String.mk (formatChars fmtPtr "Library loaded: %p (UI thread: %p)\n".data [l, h]) =
      "Library loaded: " ++ fmtPtr l ++ " (UI thread: " ++ fmtPtr h ++ ")\n" := by
  apply String.ext
  simp [formatChars]

/-! ## C1: the four steps, once each and in order -/

/-- C1: in every run in which `main` runs to completion, the trace holds the
load, the lookup, the call of the resolved entry point and the wait, in this
order, and each of these four kinds exactly once. -/
theorem completed_run_four_steps_in_order (os : Win32) (code : Int)
    (hdone : (run os).value = some code) :
    ∃ h : HANDLE,
      List.Sublist
        [Effect.LoadLibraryA "script-manager.dll",
         Effect.GetProcAddress (loaded os) "GetUIThreadHandle",
         Effect.call (resolved os) [],
         Effect.WaitForSingleObject h INFINITE] (run os).trace ∧
      ((run os).trace.map Effect.kind).filter (fun k => decide (k ∈ fourSteps)) =
        [Kind.load, Kind.lookup, Kind.call, Kind.wait] ∧
      (ofKind Kind.load (run os).trace).length = 1 ∧
      (ofKind Kind.lookup (run os).trace).length = 1 ∧
      (ofKind Kind.call (run os).trace).length = 1 ∧
      (ofKind Kind.wait (run os).trace).length = 1 := by
  obtain ⟨h, r, hc, _, _⟩ := run_value_some os code hdone
  refine ⟨h, ?_⟩
  rw [run_trace_of_call os h hc]
  refine ⟨?_, rfl, rfl, rfl, rfl, rfl⟩
  exact List.Sublist.cons₂ _ (List.Sublist.cons₂ _ (List.Sublist.cons₂ _
    (List.Sublist.cons _ (List.Sublist.refl _))))

/-- C1, at a concrete input: the platform `osGood`, on which `main` returns. -/
theorem completed_run_four_steps_in_order_witness :
    (run osGood).value = some 0 ∧
    ∃ h : HANDLE,
      List.Sublist
        [Effect.LoadLibraryA "script-manager.dll",
         Effect.GetProcAddress (loaded osGood) "GetUIThreadHandle",
         Effect.call (resolved osGood) [],
         Effect.WaitForSingleObject h INFINITE] (run osGood).trace ∧
      ((run osGood).trace.map Effect.kind).filter (fun k => decide (k ∈ fourSteps)) =
        [Kind.load, Kind.lookup, Kind.call, Kind.wait] ∧
      (ofKind Kind.load (run osGood).trace).length = 1 ∧
      (ofKind Kind.lookup (run osGood).trace).length = 1 ∧
      (ofKind Kind.call (run osGood).trace).length = 1 ∧
      (ofKind Kind.wait (run osGood).trace).length = 1 :=
  ⟨by decide, completed_run_four_steps_in_order osGood 0 (by decide)⟩

/-! ## C2: what is loaded, looked up and called -/

/-- C2: in every run the only load is of the file name `script-manager.dll`,
the only lookup is of the symbol `GetUIThreadHandle` in the module handle that
load returned, the only call through a pointer is of the pointer that lookup
returned, with no arguments, and whatever that call returns is the handle the
program goes on with: it is the handle of the wait. -/
theorem main_loads_looks_up_and_calls (os : Win32) :
    ofKind Kind.load (run os).trace = [Effect.LoadLibraryA "script-manager.dll"] ∧
    ofKind Kind.lookup (run os).trace =
      [Effect.GetProcAddress (os.LoadLibraryA "script-manager.dll") "GetUIThreadHandle"] ∧
    ofKind Kind.call (run os).trace =
      [Effect.call
        (os.GetProcAddress (os.LoadLibraryA "script-manager.dll") "GetUIThreadHandle") []] ∧
    ofKind Kind.wait (run os).trace =
      (match os.call
          (os.GetProcAddress (os.LoadLibraryA "script-manager.dll") "GetUIThreadHandle") with
       | none => []
       | some h => [Effect.WaitForSingleObject h INFINITE]) := by
  rw [run_trace]
  show _ ∧ _ ∧ _ ∧ _ = (match os.call (resolved os) with
    | none => []
    | some h => [Effect.WaitForSingleObject h INFINITE])
  cases os.call (resolved os) <;> exact ⟨rfl, rfl, rfl, rfl⟩

/-! ## C3: the whole observable behaviour -/

/-- C3 as stated fails: on the platform `osGood` the trace holds a `printf`,
which is none of the four steps, and the run leaves a line on standard output. -/
theorem four_steps_only_counterexample :
    ¬ (∀ e ∈ (run osGood).trace, e.kind ∈ fourSteps) ∧
    Effect.printf "Library loaded: %p (UI thread: %p)\n" [0x10000000, 0x1C4] ∈
      (run osGood).trace ∧
    stdout osGood.fmtPtr (run osGood).trace =
      "Library loaded: 0000000010000000 (UI thread: 00000000000001C4)\n" := by
  refine ⟨?_, by decide, by decide⟩
  intro hall
  exact absurd
    (hall (Effect.printf "Library loaded: %p (UI thread: %p)\n" [0x10000000, 0x1C4]) (by decide))
    (by decide)

/-- C3, amended: every effect of every run is one of five: the load of
`script-manager.dll`, the lookup of `GetUIThreadHandle` in the loaded module,
the call of the resolved pointer with no arguments, the `printf` of the one
line with the module handle and the returned handle, and the wait on the
returned handle with timeout `INFINITE`; the kinds come in this order, the
trace stopping after the call when the entry point does not return. -/
theorem five_steps_only (os : Win32) (e : Effect) (he : e ∈ (run os).trace) :
    (e = Effect.LoadLibraryA "script-manager.dll" ∨
     e = Effect.GetProcAddress (loaded os) "GetUIThreadHandle" ∨
     e = Effect.call (resolved os) [] ∨
     ∃ h : HANDLE, os.call (resolved os) = some h ∧
       (e = Effect.printf "Library loaded: %p (UI thread: %p)\n" [loaded os, h] ∨
        e = Effect.WaitForSingleObject h INFINITE)) ∧
    ((run os).trace.map Effect.kind = [Kind.load, Kind.lookup, Kind.call] ∧
        os.call (resolved os) = none ∨
     (run os).trace.map Effect.kind =
        [Kind.load, Kind.lookup, Kind.call, Kind.print, Kind.wait]) := by
  cases hc : os.call (resolved os) with
  | none =>
    rw [run_trace_of_no_return os hc] at he ⊢
    simp only [List.mem_cons, List.mem_singleton, List.not_mem_nil, or_false] at he
    refine ⟨?_, Or.inl ⟨rfl, rfl⟩⟩
    rcases he with he | he | he
    · exact Or.inl he
    · exact Or.inr (Or.inl he)
    · exact Or.inr (Or.inr (Or.inl he))
  | some h =>
    rw [run_trace_of_call os h hc] at he ⊢
    simp only [List.mem_cons, List.mem_singleton, List.not_mem_nil, or_false] at he
    refine ⟨?_, Or.inr rfl⟩
    rcases he with he | he | he | he | he
    · exact Or.inl he
    · exact Or.inr (Or.inl he)
    · exact Or.inr (Or.inr (Or.inl he))
    · exact Or.inr (Or.inr (Or.inr ⟨h, rfl, Or.inl he⟩))
    · exact Or.inr (Or.inr (Or.inr ⟨h, rfl, Or.inr he⟩))

/-- C3, amended, at a concrete input: the `printf` of the run on `osGood`. -/
theorem five_steps_only_witness :
    Effect.printf "Library loaded: %p (UI thread: %p)\n" [0x10000000, 0x1C4] ∈
      (run osGood).trace ∧
    (run osGood).trace.map Effect.kind =
      [Kind.load, Kind.lookup, Kind.call, Kind.print, Kind.wait] := by
  refine ⟨by decide, ?_⟩
  have h := (five_steps_only osGood
    (Effect.printf "Library loaded: %p (UI thread: %p)\n" [0x10000000, 0x1C4]) (by decide)).2
  rcases h with ⟨_, hnone⟩ | h
  · exact absurd hnone (by decide)
  · exact h

/-! ## C4: no check of the load or of the lookup -/

/-- C4: whatever module handle `m` the load returns, null included, `main`
passes it to the lookup, and whatever pointer `p` the lookup returns, null
included, `main` calls it.  No branch depends on `m` or `p`: the whole trace
and the exit status of the run are one fixed sequence in which `m` and `p`
occur only as arguments, cut short only where the call through `p` or the wait
does not return; so a second platform whose entry point and wait answer alike
makes the same kinds of calls and ends alike, whatever its load and lookup
returned. -/
theorem load_and_lookup_unchecked (os : Win32) (m : HMODULE) (p : FARPROC)
    (hm : os.LoadLibraryA "script-manager.dll" = m)
    (hp : os.GetProcAddress m "GetUIThreadHandle" = p) :
    (run os).trace =
      [Effect.LoadLibraryA "script-manager.dll",
       Effect.GetProcAddress m "GetUIThreadHandle",
       Effect.call p []] ++
      (match os.call p with
       | none => []
       | some h =>
         [Effect.printf "Library loaded: %p (UI thread: %p)\n" [m, h],
          Effect.WaitForSingleObject h INFINITE]) ∧
    (run os).value =
      (match os.call p with
       | none => none
       | some h =>
         match os.WaitForSingleObject h INFINITE with
         | none => none
         | some _ => some 0) ∧
    (∀ os2 : Win32,
      os2.call (resolved os2) = os.call p →
      (∀ h : HANDLE, os2.WaitForSingleObject h INFINITE = os.WaitForSingleObject h INFINITE) →
      (run os2).trace.map Effect.kind = (run os).trace.map Effect.kind ∧
      ofKind Kind.wait (run os2).trace = ofKind Kind.wait (run os).trace ∧
      (run os2).value = (run os).value) := by
  have hl : loaded os = m := hm
  have hr : resolved os = p := by unfold resolved; rw [hl, hp]
  refine ⟨?_, ?_, ?_⟩
  · rw [run_trace, hl, hr]
  · rw [run_value, hr]
  · intro os2 hcall2 hwait2
    rw [run_trace os2, run_trace os, run_value os2, run_value os, hr, hcall2]
    cases os.call p with
    | none => exact ⟨rfl, rfl, rfl⟩
    | some h =>
      refine ⟨rfl, rfl, ?_⟩
      show (match os2.WaitForSingleObject h INFINITE with
        | none => none
        | some _ => some (0 : Int)) = _
      rw [hwait2 h]

/-- C4, at a concrete input: the load and the lookup both return null, the
null handle is what `main` looks the symbol up in and the null pointer is what
it calls; the call faults, so the run ends there without an exit status. -/
theorem load_and_lookup_unchecked_witness :
    osMissing.LoadLibraryA "script-manager.dll" = NULL ∧
    osMissing.GetProcAddress NULL "GetUIThreadHandle" = NULL ∧
    (run osMissing).trace =
      [Effect.LoadLibraryA "script-manager.dll",
       Effect.GetProcAddress NULL "GetUIThreadHandle",
       Effect.call NULL []] ∧
    (run osMissing).value = none :=
  ⟨rfl, rfl,
    (load_and_lookup_unchecked osMissing NULL NULL rfl rfl).1.trans (by decide),
    (load_and_lookup_unchecked osMissing NULL NULL rfl rfl).2.1.trans (by decide)⟩

/-! ## C5: the handle of the wait -/

/-- C5 as stated fails: on the platform `osMissing` the load fails and the
lookup fails, the call through the null pointer does not return, and the run
ends there: no wait is reached, with a null handle or any other. -/
theorem failed_load_reaches_wait_counterexample :
    loaded osMissing = NULL ∧ resolved osMissing = NULL ∧
    (run osMissing).trace =
      [Effect.LoadLibraryA "script-manager.dll",
       Effect.GetProcAddress NULL "GetUIThreadHandle",
       Effect.call NULL []] ∧
    Effect.WaitForSingleObject NULL INFINITE ∉ (run osMissing).trace ∧
    ofKind Kind.wait (run osMissing).trace = [] ∧
    ¬ (∀ os : Win32, loaded os = NULL ∨ resolved os = NULL →
        Effect.WaitForSingleObject NULL INFINITE ∈ (run os).trace) := by
  refine ⟨rfl, rfl, by decide, by decide, by decide, ?_⟩
  intro hall
  exact absurd (hall osMissing (Or.inl rfl)) (by decide)

/-- C5, amended: the handle of the wait is the handle the entry point returned,
whatever it is, null included, and the wait is reached exactly when the call
of the entry point returns.  A failed load or lookup does not change this:
`main` calls the pointer the lookup returned, null or not. -/
theorem wait_receives_entry_point_result (os : Win32) :
    (∀ h : HANDLE, os.call (resolved os) = some h →
      ofKind Kind.wait (run os).trace = [Effect.WaitForSingleObject h INFINITE]) ∧
    (os.call (resolved os) = none → ofKind Kind.wait (run os).trace = []) ∧
    Effect.call (resolved os) [] ∈ (run os).trace := by
  refine ⟨?_, ?_, ?_⟩
  · intro h hc
    rw [run_trace_of_call os h hc]; rfl
  · intro hc
    rw [run_trace_of_no_return os hc]; rfl
  · rw [run_trace]; simp

/-- C5, amended, at a concrete input: the entry point returns the null handle,
and the null handle is what the wait receives. -/
theorem wait_receives_entry_point_result_witness :
    osNullHandle.call (resolved osNullHandle) = some NULL ∧
    ofKind Kind.wait (run osNullHandle).trace = [Effect.WaitForSingleObject NULL INFINITE] :=
  ⟨rfl, (wait_receives_entry_point_result osNullHandle).1 NULL rfl⟩

/-! ## C6: one wait, without a timeout -/

/-- C6 as stated fails: on the platform `osMissing` the call through the null
pointer does not return and `main` issues no wait at all, so it is not true of
every run that exactly one wait is issued. -/
theorem exactly_one_wait_counterexample :
    ofKind Kind.wait (run osMissing).trace = [] ∧
    (ofKind Kind.wait (run osMissing).trace).length ≠ 1 ∧
    ¬ (∀ os : Win32, (ofKind Kind.wait (run os).trace).length = 1) := by
  refine ⟨by decide, by decide, ?_⟩
  intro hall
  exact absurd (hall osMissing) (by decide)

/-- C6, amended: in every run in which the call of the entry point returns,
`main` issues exactly one wait, on the handle that call returned, with the
timeout `INFINITE`, which is `0xFFFFFFFF`, and nothing follows it: no later
call cancels it; in a run in which the call of the entry point does not
return, `main` issues no wait; so no run holds more than one wait, and every
wait of every run is on the handle the entry point returned and has the
timeout `0xFFFFFFFF`. -/
theorem single_unbounded_wait (os : Win32) :
    INFINITE = 0xFFFFFFFF ∧
    (ofKind Kind.wait (run os).trace).length ≤ 1 ∧
    (∀ (h : HANDLE) (t : DWORD), Effect.WaitForSingleObject h t ∈ (run os).trace →
      t = 0xFFFFFFFF ∧ os.call (resolved os) = some h) ∧
    (∀ h : HANDLE, os.call (resolved os) = some h →
      ofKind Kind.wait (run os).trace = [Effect.WaitForSingleObject h 0xFFFFFFFF] ∧
      (run os).trace.getLast? = some (Effect.WaitForSingleObject h 0xFFFFFFFF)) ∧
    (os.call (resolved os) = none → ofKind Kind.wait (run os).trace = []) := by
  refine ⟨rfl, ?_, ?_, ?_, ?_⟩
  · cases hc : os.call (resolved os) with
    | none => rw [run_trace_of_no_return os hc]; exact Nat.zero_le 1
    | some h => rw [run_trace_of_call os h hc]; exact Nat.le_refl 1
  · intro h t hmem
    cases hc : os.call (resolved os) with
    | none =>
      rw [run_trace_of_no_return os hc] at hmem
      simp at hmem
    | some h0 =>
      rw [run_trace_of_call os h0 hc] at hmem
      simp [INFINITE] at hmem
      exact ⟨hmem.2, by rw [hmem.1]⟩
  · intro h hc
    rw [run_trace_of_call os h hc]
    exact ⟨rfl, rfl⟩
  · intro hc
    rw [run_trace_of_no_return os hc]; rfl

/-- C6, amended, at a concrete input: the one wait of the run on `osGood`. -/
theorem single_unbounded_wait_witness :
    osGood.call (resolved osGood) = some 0x1C4 ∧
    ofKind Kind.wait (run osGood).trace = [Effect.WaitForSingleObject 0x1C4 0xFFFFFFFF] ∧
    (run osGood).trace.getLast? = some (Effect.WaitForSingleObject 0x1C4 0xFFFFFFFF) :=
  ⟨rfl, (single_unbounded_wait osGood).2.2.2.1 0x1C4 rfl⟩

/-! ## C7: `main` returns only after the wait -/

/-- C7: in every run in which `main` returns, the entry point returned a
handle, the wait on that handle returned, and that wait is the last effect of
the trace; so when the wait returns only for a signaled handle, the handle
obtained from the entry point was signaled. -/
theorem main_returns_only_after_wait (os : Win32) (code : Int)
    (hret : (run os).value = some code)
    (signaled : HANDLE → Prop)
    (hwait : ∀ (h : HANDLE) (t r : DWORD),
      os.WaitForSingleObject h t = some r → signaled h) :
    ∃ (h : HANDLE) (r : DWORD),
      os.call (resolved os) = some h ∧
      os.WaitForSingleObject h INFINITE = some r ∧
      (run os).trace.getLast? = some (Effect.WaitForSingleObject h INFINITE) ∧
      signaled h := by
  obtain ⟨h, r, hc, hw, _⟩ := run_value_some os code hret
  refine ⟨h, r, hc, hw, ?_, hwait h INFINITE r hw⟩
  rw [run_trace_of_call os h hc]; rfl

/-- C7, at a concrete input: on the platform `osSignal` the wait returns only
for the handle `0x1C4`, the one signaled handle, and `main` returns. -/
theorem main_returns_only_after_wait_witness :
    (run osSignal).value = some 0 ∧
    (∀ (h : HANDLE) (t r : DWORD),
      osSignal.WaitForSingleObject h t = some r → h = 0x1C4) ∧
    ∃ (h : HANDLE) (r : DWORD),
      osSignal.call (resolved osSignal) = some h ∧
      osSignal.WaitForSingleObject h INFINITE = some r ∧
      (run osSignal).trace.getLast? = some (Effect.WaitForSingleObject h INFINITE) ∧
      h = 0x1C4 :=
  have hw : ∀ (h : HANDLE) (t r : DWORD),
      osSignal.WaitForSingleObject h t = some r → h = 0x1C4 := by
    intro h t r hr
    by_contra hne
    simp [osSignal, hne] at hr
  ⟨by decide, hw,
    main_returns_only_after_wait osSignal 0 (by decide) (fun h => h = 0x1C4) hw⟩

/-- A wait that never returns keeps `main` from returning (the other
direction of C7). -/
theorem main_blocked_while_wait_blocks (os : Win32) (h : HANDLE)
    (hcall : os.call (resolved os) = some h)
    (hblock : os.WaitForSingleObject h INFINITE = none) :
    (run os).value = none := by
  rw [run_value, hcall]; simp [hblock]

/-! ## C8: the result of the wait is discarded -/

/-- C8: whatever value `r` the wait returns, `main` returns the exit status `0`. -/
theorem exit_status_ignores_wait_result (os : Win32) (h : HANDLE) (r : DWORD)
    (hcall : os.call (resolved os) = some h)
    (hw : os.WaitForSingleObject h INFINITE = some r) :
    (run os).value = some 0 := by
  rw [run_value, hcall]; simp [hw]

/-- C8, at a concrete input: the wait on a null handle fails with `WAIT_FAILED`
and the exit status is `0`, the same as on `osGood`, where the wait returns
`WAIT_OBJECT_0`. -/
theorem exit_status_ignores_wait_result_witness :
    osNullHandle.call (resolved osNullHandle) = some NULL ∧
    osNullHandle.WaitForSingleObject NULL INFINITE = some WAIT_FAILED ∧
    osGood.WaitForSingleObject 0x1C4 INFINITE = some WAIT_OBJECT_0 ∧
    (run osNullHandle).value = some 0 ∧
    (run osNullHandle).value = (run osGood).value :=
  ⟨rfl, rfl, rfl,
    exit_status_ignores_wait_result osNullHandle NULL WAIT_FAILED rfl rfl,
    (exit_status_ignores_wait_result osNullHandle NULL WAIT_FAILED rfl rfl).trans (by decide)⟩

/-! ## C9: the line on standard output -/

/-- C9 as stated fails: on the platform `osMissing` the call through the null
pointer does not return, `main` makes no `printf` and standard output stays
empty, so it is not true of every run that exactly one line is written. -/
theorem one_line_always_counterexample :
    ofKind Kind.print (run osMissing).trace = [] ∧
    stdout osMissing.fmtPtr (run osMissing).trace = "" ∧
    ¬ (∀ os : Win32, (ofKind Kind.print (run os).trace).length = 1) := by
  refine ⟨by decide, by decide, ?_⟩
  intro hall
  exact absurd (hall osMissing) (by decide)

/-- C9, amended: in every run in which the call of the entry point returns a
handle `h`, `main` makes exactly one `printf`, after the call of the entry
point and before the wait; the text handed to standard output is then
`Library loaded: <p1> (UI thread: <p2>)` and a newline, with `<p1>` the
rendering of the module handle the load returned and `<p2>` the rendering of
`h`, the handle of the wait; it is one line, a text without a newline followed
by one newline, when a rendered pointer holds no newline.  In a run in which
the call of the entry point does not return, `main` writes nothing. -/
theorem one_line_on_stdout (os : Win32) :
    (∀ h : HANDLE, os.call (resolved os) = some h →
      (run os).trace =
        [Effect.LoadLibraryA "script-manager.dll",
         Effect.GetProcAddress (loaded os) "GetUIThreadHandle",
         Effect.call (resolved os) [],
         Effect.printf "Library loaded: %p (UI thread: %p)\n" [loaded os, h],
         Effect.WaitForSingleObject h INFINITE] ∧
      ofKind Kind.print (run os).trace =
        [Effect.printf "Library loaded: %p (UI thread: %p)\n"
          [os.LoadLibraryA "script-manager.dll", h]] ∧
      stdout os.fmtPtr (run os).trace =
        "Library loaded: " ++ os.fmtPtr (os.LoadLibraryA "script-manager.dll") ++
          " (UI thread: " ++ os.fmtPtr h ++ ")\n" ∧
      ((∀ n : Nat, '\n' ∉ (os.fmtPtr n).data) →
        ∃ line : String, '\n' ∉ line.data ∧
          stdout os.fmtPtr (run os).trace = line ++ "\n")) ∧
    (os.call (resolved os) = none →
      ofKind Kind.print (run os).trace = [] ∧ stdout os.fmtPtr (run os).trace = "") := by
  constructor
  · intro h hcall
    have hout : stdout os.fmtPtr (run os).trace =
        "Library loaded: " ++ os.fmtPtr (os.LoadLibraryA "script-manager.dll") ++
          " (UI thread: " ++ os.fmtPtr h ++ ")\n" := by
      rw [run_trace_of_call os h hcall]
      simp only [stdout, List.foldl, Effect.output]
      rw [formatChars_main]
      simp [loaded]
    refine ⟨run_trace_of_call os h hcall, ?_, hout, ?_⟩
    · rw [run_trace_of_call os h hcall]; rfl
    · intro hnl
      rw [hout]
      have h1 := hnl (os.LoadLibraryA "script-manager.dll")
      have h2 := hnl h
      refine ⟨"Library loaded: " ++ os.fmtPtr (os.LoadLibraryA "script-manager.dll") ++
          " (UI thread: " ++ os.fmtPtr h ++ ")", ?_, ?_⟩
      · simp [h1, h2]
      · apply String.ext
        simp
  · intro hcall
    rw [run_trace_of_no_return os hcall]
    exact ⟨rfl, rfl⟩

/-- C9, amended, at a concrete input: the line the run on `osGood` writes. -/
theorem one_line_on_stdout_witness :
    osGood.call (resolved osGood) = some 0x1C4 ∧
    ofKind Kind.print (run osGood).trace =
      [Effect.printf "Library loaded: %p (UI thread: %p)\n" [0x10000000, 0x1C4]] ∧
    stdout hexPtr (run osGood).trace =
      "Library loaded: 0000000010000000 (UI thread: 00000000000001C4)\n" :=
  ⟨rfl, ((one_line_on_stdout osGood).1 0x1C4 rfl).2.1,
    ((one_line_on_stdout osGood).1 0x1C4 rfl).2.2.1.trans (by decide)⟩

end Launcher
